import Mathlib

/-!
Verification of the runtime core of `cinder/app/AppBase.h`: the event
combiners, the cross-thread dispatch mechanism, the fps sampler, the
frame-rate settings, the per-frame sequence, and the global instance
accessors.  Each source function is shallowly embedded as an executable
Lean definition; machine floats (`float`/`double` fields holding rates and
times) are modelled as exact rationals, and C++ exceptions as `Except`.
-/

set_option autoImplicit false

namespace Cinder

/-! ### Event combiners (`AppBase.h` lines 55-101)

The three combiners iterate an input range of slot results.  A range is
embedded as a `List` of the values the slots return; `first == last`
is emptiness, `*first++` takes the head and advances to the tail. -/

namespace BooleanOrEventCombiner

/-- The `while( first != last ) handled = *first++ || handled;` loop of
`BooleanOrEventCombiner::operator()`. -/
def callLoop : List Bool → Bool → Bool
  | [], handled => handled
  | r :: rest, handled => callLoop rest (r || handled)

/-- `BooleanOrEventCombiner::operator()( first, last )`:
`handled` starts as `true` exactly when the range is empty, then the loop
folds every slot result in. -/
def call (results : List Bool) : Bool :=
  callLoop results results.isEmpty

end BooleanOrEventCombiner

namespace BooleanAndEventCombiner

/-- The `while( first != last ) result = *first++ && result;` loop of
`BooleanAndEventCombiner::operator()`. -/
def callLoop : List Bool → Bool → Bool
  | [], result => result
  | r :: rest, result => callLoop rest (r && result)

/-- `BooleanAndEventCombiner::operator()( first, last )`: `result` starts
`true`, then the loop folds every slot result in. -/
def call (results : List Bool) : Bool :=
  callLoop results true

end BooleanAndEventCombiner

namespace BitwiseAndEventCombiner

/-- The `while( first != last ) mask &= *first++;` loop of
`BitwiseAndEventCombiner::operator()`. -/
def callLoop : List Nat → Nat → Nat
  | [], mask => mask
  | r :: rest, mask => callLoop rest (mask &&& r)

/-- `BitwiseAndEventCombiner<T>::operator()( first, last )`: returns `0`
on an empty range, otherwise seeds `mask` with the first slot result and
ANDs in the rest.  `T` is embedded as `Nat` (bitwise AND never overflows,
so no width reduction is needed). -/
def call : List Nat → Nat
  | [] => 0
  | r :: rest => callLoop rest r

end BitwiseAndEventCombiner

/-! ### Traced combiner evaluation, for the no-short-circuit invariant

When a combiner is used by a signal emission, dereferencing the input
iterator (`*first++`) *invokes* a subscriber slot.  To observe which slots
a combiner invokes, a slot is embedded as an id together with the value
its invocation returns, and each combiner is rerun so that every iterator
dereference appends the slot's id to a trace, in evaluation order. -/

/-- A connected subscriber slot: an id identifying it in the invocation
trace, and the value its invocation returns. -/
structure Slot (α : Type) where
  id : Nat
  ret : α

namespace BooleanOrEventCombiner

/-- The `BooleanOrEventCombiner` loop with every iterator dereference
(slot invocation) recorded in evaluation order. -/
def runLoop : List (Slot Bool) → Bool → Bool × List Nat
  | [], handled => (handled, [])
  | s :: rest, handled =>
    let next := runLoop rest (s.ret || handled)
    (next.1, s.id :: next.2)

/-- `BooleanOrEventCombiner::operator()` over subscriber slots, returning
the combined result and the trace of invoked slot ids. -/
def run (slots : List (Slot Bool)) : Bool × List Nat :=
  runLoop slots slots.isEmpty

end BooleanOrEventCombiner

namespace BooleanAndEventCombiner

/-- The `BooleanAndEventCombiner` loop with every iterator dereference
(slot invocation) recorded in evaluation order. -/
def runLoop : List (Slot Bool) → Bool → Bool × List Nat
  | [], result => (result, [])
  | s :: rest, result =>
    let next := runLoop rest (s.ret && result)
    (next.1, s.id :: next.2)

/-- `BooleanAndEventCombiner::operator()` over subscriber slots, returning
the combined result and the trace of invoked slot ids. -/
def run (slots : List (Slot Bool)) : Bool × List Nat :=
  runLoop slots true

end BooleanAndEventCombiner

namespace BitwiseAndEventCombiner

/-- The `BitwiseAndEventCombiner` loop with every iterator dereference
(slot invocation) recorded in evaluation order. -/
def runLoop : List (Slot Nat) → Nat → Nat × List Nat
  | [], mask => (mask, [])
  | s :: rest, mask =>
    let next := runLoop rest (mask &&& s.ret)
    (next.1, s.id :: next.2)

/-- `BitwiseAndEventCombiner<T>::operator()` over subscriber slots,
returning the combined result and the trace of invoked slot ids. -/
def run : List (Slot Nat) → Nat × List Nat
  | [] => (0, [])
  | s :: rest =>
    let next := runLoop rest s.ret
    (next.1, s.id :: next.2)

end BitwiseAndEventCombiner

/-! Helper lemmas about the combiner loops. -/

theorem booleanOr_callLoop_eq (l : List Bool) (acc : Bool) :
    BooleanOrEventCombiner.callLoop l acc = (l.any id || acc) := by
  induction l generalizing acc with
  | nil => simp [BooleanOrEventCombiner.callLoop]
  | cons r rest ih =>
    simp [BooleanOrEventCombiner.callLoop, ih, Bool.or_assoc, Bool.or_comm,
      Bool.or_left_comm]

theorem booleanAnd_callLoop_eq (l : List Bool) (acc : Bool) :
    BooleanAndEventCombiner.callLoop l acc = (l.all id && acc) := by
  induction l generalizing acc with
  | nil => simp [BooleanAndEventCombiner.callLoop]
  | cons r rest ih =>
    simp [BooleanAndEventCombiner.callLoop, ih, Bool.and_assoc, Bool.and_comm,
      Bool.and_left_comm]

theorem bitwiseAnd_callLoop_eq (l : List Nat) (acc : Nat) :
    BitwiseAndEventCombiner.callLoop l acc = l.foldl (· &&& ·) acc := by
  induction l generalizing acc with
  | nil => rfl
  | cons r rest ih => simp [BitwiseAndEventCombiner.callLoop, ih, List.foldl]

theorem booleanOr_runLoop_trace (slots : List (Slot Bool)) (acc : Bool) :
    (BooleanOrEventCombiner.runLoop slots acc).2 = slots.map Slot.id := by
  induction slots generalizing acc with
  | nil => rfl
  | cons s rest ih => simp [BooleanOrEventCombiner.runLoop, ih]

theorem booleanAnd_runLoop_trace (slots : List (Slot Bool)) (acc : Bool) :
    (BooleanAndEventCombiner.runLoop slots acc).2 = slots.map Slot.id := by
  induction slots generalizing acc with
  | nil => rfl
  | cons s rest ih => simp [BooleanAndEventCombiner.runLoop, ih]

theorem bitwiseAnd_runLoop_trace (slots : List (Slot Nat)) (acc : Nat) :
    (BitwiseAndEventCombiner.runLoop slots acc).2 = slots.map Slot.id := by
  induction slots generalizing acc with
  | nil => rfl
  | cons s rest ih => simp [BitwiseAndEventCombiner.runLoop, ih]

/-- C4: applied to an empty sequence of slot results, each combiner
returns its identity: `BooleanOrEventCombiner` returns `true`,
`BooleanAndEventCombiner` returns `true`, and `BitwiseAndEventCombiner`
returns `0`. -/
theorem combiners_empty_identity :
    BooleanOrEventCombiner.call [] = true
    ∧ BooleanAndEventCombiner.call [] = true
    ∧ BitwiseAndEventCombiner.call [] = 0 :=
  ⟨rfl, rfl, rfl⟩

/-- C5: on every non-empty sequence of slot results,
`BooleanOrEventCombiner` returns the boolean OR of all results,
`BooleanAndEventCombiner` the boolean AND of all results, and
`BitwiseAndEventCombiner` the bitwise AND of all results. -/
theorem combiners_nonempty_fold :
    (∀ l : List Bool, l ≠ [] → BooleanOrEventCombiner.call l = l.any id)
    ∧ (∀ l : List Bool, l ≠ [] → BooleanAndEventCombiner.call l = l.all id)
    ∧ (∀ (r : Nat) (rest : List Nat),
        BitwiseAndEventCombiner.call (r :: rest) = rest.foldl (· &&& ·) r) := by
  refine ⟨?_, ?_, ?_⟩
  · intro l hl
    cases l with
    | nil => exact absurd rfl hl
    | cons r rest =>
      simp [BooleanOrEventCombiner.call, booleanOr_callLoop_eq]
  · intro l hl
    simp [BooleanAndEventCombiner.call, booleanAnd_callLoop_eq]
  · intro r rest
    simp [BitwiseAndEventCombiner.call, bitwiseAnd_callLoop_eq]

/-- C5 witness: the spec's concrete examples — `{true, false, true}`
yields `true` under OR and `false` under AND, and `{0b110, 0b100}` yields
`0b100` under bitwise AND. -/
theorem combiners_nonempty_fold_witness :
    BooleanOrEventCombiner.call [true, false, true] = true
    ∧ BooleanAndEventCombiner.call [true, false, true] = false
    ∧ BitwiseAndEventCombiner.call [6, 4] = 4 :=
  ⟨(combiners_nonempty_fold.1 [true, false, true] (by decide)).trans (by decide),
   (combiners_nonempty_fold.2.1 [true, false, true] (by decide)).trans (by decide),
   (combiners_nonempty_fold.2.2 6 [4]).trans (by decide)⟩

/-- C6: every combiner invokes (dereferences and advances past) every
slot in the input range exactly once, in order, whatever values the slots
return — no combiner short-circuits: the invocation trace is always the
full list of slot ids. -/
theorem combiners_no_short_circuit :
    (∀ slots : List (Slot Bool),
      (BooleanOrEventCombiner.run slots).2 = slots.map Slot.id)
    ∧ (∀ slots : List (Slot Bool),
      (BooleanAndEventCombiner.run slots).2 = slots.map Slot.id)
    ∧ (∀ slots : List (Slot Nat),
      (BitwiseAndEventCombiner.run slots).2 = slots.map Slot.id) := by
  refine ⟨?_, ?_, ?_⟩
  · intro slots
    simp [BooleanOrEventCombiner.run, booleanOr_runLoop_trace]
  · intro slots
    simp [BooleanAndEventCombiner.run, booleanAnd_runLoop_trace]
  · intro slots
    cases slots with
    | nil => rfl
    | cons s rest => simp [BitwiseAndEventCombiner.run, bitwiseAnd_runLoop_trace]

/-! ### Cross-thread dispatch (`AppBase.h` lines 394-404, 589-602)

`dispatchSync` is implemented in the header: on the primary thread it runs
the callable inline; otherwise it wraps the callable in a
`std::packaged_task`, enqueues a thunk running that task via
`dispatchAsync`, and blocks on the task's future.  A callable is embedded
as `Unit → Except ε α` (`Except.error` is a raised C++ exception); the
task queue as the FIFO list of enqueued thunks; the blocking
`future::get()` as the value the call returns once the primary thread's
drain has fulfilled the slot. -/

/-- The identity of the calling thread: the app's primary thread or any
other thread. -/
inductive ThreadId where
  | primary
  | worker (n : Nat)
deriving DecidableEq

/-- The one-shot result slot of the `std::packaged_task` / future pair
after the task has been run: it holds the callable's value, or the
exception the callable raised, caught at the task boundary. -/
structure ResultSlot (ε α : Type) where
  payload : Except ε α

/-- Running the packaged task (`task()`): executes the callable and
stores its outcome — value or raised exception — into the slot. -/
def ResultSlot.fulfill {ε α : Type} (fn : Unit → Except ε α) : ResultSlot ε α :=
  ⟨fn ()⟩

/-- `future::get()` on a fulfilled slot: returns the stored value, or
re-raises the stored exception. -/
def ResultSlot.get {ε α : Type} (slot : ResultSlot ε α) : Except ε α :=
  slot.payload

/-- The task dispatcher's FIFO queue of deferred thunks, each drained and
executed by the primary thread. -/
abbrev TaskQueue (ε α : Type) := List (Unit → Except ε α)

namespace AppBase

/-- `AppBase::dispatchAsync( fn )`: enqueues the thunk at the back of the
queue and returns immediately. -/
def dispatchAsync {ε α : Type} (queue : TaskQueue ε α) (fn : Unit → Except ε α) :
    TaskQueue ε α :=
  queue ++ [fn]

/-- The drain step: the primary thread takes the queue's contents and
executes every thunk in FIFO order, yielding their outcomes. -/
def drain {ε α : Type} (queue : TaskQueue ε α) : List (Except ε α) :=
  queue.map (fun t => t ())

/-- What a `dispatchSync` call does, as observed by its caller: whether
the calling thread blocks on a future before the call returns, and the
value the call eventually returns (with `Except.error` a re-raised
exception). -/
structure SyncOutcome (ε α : Type) where
  blocks : Bool
  value : Except ε α

/-- `AppBase::dispatchSync( fn )`: if the caller is the primary thread,
run `fn` inline and return its result, touching no queue; otherwise wrap
`fn` in a packaged task, enqueue the thunk running the task via
`dispatchAsync`, and block on the task's future until the drain fulfills
it.  Returns the caller-observed outcome and the updated queue. -/
def dispatchSync {ε α : Type} (caller : ThreadId) (queue : TaskQueue ε α)
    (fn : Unit → Except ε α) : SyncOutcome ε α × TaskQueue ε α :=
  if caller = ThreadId.primary then
    ({ blocks := false, value := fn () }, queue)
  else
    let task := fun (_ : Unit) => (ResultSlot.fulfill fn).get
    ({ blocks := true, value := (ResultSlot.fulfill fn).get },
     dispatchAsync queue task)

end AppBase

/-- C1: `dispatchSync` called from the primary thread executes the
callable inline — the result is returned at once, the queue is unchanged
(nothing enqueued) and the caller does not block — so a callable that
itself calls `dispatchSync` from the primary thread completes and yields
the inner callable's result (no deadlock on reentrancy). -/
theorem dispatchSync_primary_inline {ε α : Type}
    (queue inner : TaskQueue ε α) (fn : Unit → Except ε α) :
    AppBase.dispatchSync ThreadId.primary queue fn
      = ({ blocks := false, value := fn () }, queue)
    ∧ (AppBase.dispatchSync ThreadId.primary queue
        (fun _ => (AppBase.dispatchSync ThreadId.primary inner fn).1.value)).1.value
      = fn () := by
  constructor <;> simp [AppBase.dispatchSync]

/-- C2: `dispatchSync` called from a thread other than the primary thread
wraps the callable with a one-shot result slot, appends exactly that
wrapped thunk to the queue via `dispatchAsync`, blocks the caller, and
returns the value the callable produces — the very value the drain step
obtains when it executes the enqueued thunk. -/
theorem dispatchSync_nonPrimary_enqueues {ε α : Type}
    (caller : ThreadId) (queue : TaskQueue ε α) (fn : Unit → Except ε α)
    (h : caller ≠ ThreadId.primary) :
    (AppBase.dispatchSync caller queue fn).2
      = AppBase.dispatchAsync queue (fun _ => (ResultSlot.fulfill fn).get)
    ∧ (AppBase.dispatchSync caller queue fn).1.blocks = true
    ∧ AppBase.drain (AppBase.dispatchSync caller queue fn).2
      = AppBase.drain queue ++ [fn ()]
    ∧ (AppBase.dispatchSync caller queue fn).1.value = fn () := by
  refine ⟨?_, ?_, ?_, ?_⟩ <;>
    simp [AppBase.dispatchSync, AppBase.dispatchAsync, AppBase.drain, h,
      ResultSlot.fulfill, ResultSlot.get]

/-- C2 witness: from worker thread 0, dispatching a callable returning
`42` enqueues one thunk whose drained outcome is `42`, blocks the caller,
and returns `42`. -/
theorem dispatchSync_nonPrimary_enqueues_witness :
    (AppBase.dispatchSync (ThreadId.worker 0) ([] : TaskQueue Nat Nat)
        (fun _ => Except.ok 42)).2
      = AppBase.dispatchAsync []
          (fun _ => (ResultSlot.fulfill (fun _ => Except.ok 42)).get)
    ∧ (AppBase.dispatchSync (ThreadId.worker 0) ([] : TaskQueue Nat Nat)
        (fun _ => Except.ok 42)).1.blocks = true
    ∧ AppBase.drain (AppBase.dispatchSync (ThreadId.worker 0)
        ([] : TaskQueue Nat Nat) (fun _ => Except.ok 42)).2
      = AppBase.drain [] ++ [Except.ok 42]
    ∧ (AppBase.dispatchSync (ThreadId.worker 0) ([] : TaskQueue Nat Nat)
        (fun _ => Except.ok 42)).1.value = Except.ok 42 :=
  dispatchSync_nonPrimary_enqueues (ThreadId.worker 0) [] (fun _ => Except.ok 42)
    (by decide)

/-- C3: a callable that raises has its exception re-raised unchanged to
the `dispatchSync` caller on either path: inline on the primary thread,
and through the one-shot result slot — which stores that exact exception —
for a non-primary caller. -/
theorem dispatchSync_reraises {ε α : Type}
    (caller : ThreadId) (queue : TaskQueue ε α) (fn : Unit → Except ε α)
    (e : ε) (h : fn () = Except.error e) :
    (AppBase.dispatchSync caller queue fn).1.value = Except.error e
    ∧ (ResultSlot.fulfill fn).payload = Except.error e := by
  constructor
  · by_cases hc : caller = ThreadId.primary <;>
      simp [AppBase.dispatchSync, hc, ResultSlot.fulfill, ResultSlot.get, h]
  · simp [ResultSlot.fulfill, h]

/-- C3 witness: a callable raising exception `7` has `dispatchSync`
return `Except.error 7` to a worker-thread caller, carried through the
slot unchanged. -/
theorem dispatchSync_reraises_witness :
    (AppBase.dispatchSync (ThreadId.worker 1) ([] : TaskQueue Nat Nat)
        (fun _ => Except.error 7)).1.value = Except.error 7
    ∧ (ResultSlot.fulfill (fun _ => (Except.error 7 : Except Nat Nat))).payload
      = Except.error 7 :=
  dispatchSync_reraises (ThreadId.worker 1) [] (fun _ => Except.error 7) 7 rfl

/-! ### Frame clock: fps sampling and frame-rate settings

The fps bookkeeping fields are declared in `AppBase.h` lines 445-450 and
`getAverageFps` (line 333) reads `mAverageFps`, but the per-frame sampling
body of `privateUpdate__` and the bodies of `Settings::setFrameRate` /
`Settings::disableFrameRate` live in `AppBase.cpp`, which is not part of
the sources; those steps are modelled from the spec.  Times and rates are
exact rationals. -/

/-- The fps-related fields of `AppBase` (`mFrameCount`, `mAverageFps`,
`mFpsLastSampleFrame`, `mFpsLastSampleTime`, `mFpsSampleInterval`). -/
structure FpsState where
  mFrameCount : Nat
  mAverageFps : ℚ
  mFpsLastSampleFrame : Nat
  mFpsLastSampleTime : ℚ
  mFpsSampleInterval : ℚ
deriving DecidableEq

/-- `AppBase::getAverageFps()`: returns `mAverageFps`. -/
def getAverageFps (s : FpsState) : ℚ :=
  s.mAverageFps

/-- Modelled from the spec: the per-frame fps sampling step of
`privateUpdate__` (its body, in `AppBase.cpp`, is missing from the
sources).  "average fps is recomputed only when elapsed time since the
last sample meets-or-exceeds the sample interval; between samples the
previous average is returned unchanged" — when `now` has advanced at
least `mFpsSampleInterval` past `mFpsLastSampleTime`, the rolling average
becomes frames-passed over elapsed time and the sample markers move up;
otherwise the state is untouched. -/
def fpsSampleStep (s : FpsState) (now : ℚ) : FpsState :=
  if s.mFpsLastSampleTime + s.mFpsSampleInterval ≤ now then
    { s with
      mAverageFps :=
        ((s.mFrameCount : ℚ) - (s.mFpsLastSampleFrame : ℚ))
          / (now - s.mFpsLastSampleTime),
      mFpsLastSampleFrame := s.mFrameCount,
      mFpsLastSampleTime := now }
  else
    s

/-- C7: between two frame updates that occur within less than the sample
interval the sampler leaves the whole state — in particular the value
`getAverageFps` returns — unchanged; and whenever `getAverageFps` does
change across a sampling step, the elapsed time since the last sample
must have met or exceeded the sample interval. -/
theorem getAverageFps_sample_interval (s : FpsState) (now : ℚ)
    (h : now < s.mFpsLastSampleTime + s.mFpsSampleInterval) :
    fpsSampleStep s now = s
    ∧ getAverageFps (fpsSampleStep s now) = getAverageFps s
    ∧ (∀ t : ℚ, getAverageFps (fpsSampleStep s t) ≠ getAverageFps s →
        s.mFpsLastSampleTime + s.mFpsSampleInterval ≤ t) := by
  have hne : ¬ s.mFpsLastSampleTime + s.mFpsSampleInterval ≤ now :=
    not_le.mpr h
  refine ⟨?_, ?_, ?_⟩
  · simp [fpsSampleStep, hne]
  · simp [fpsSampleStep, hne]
  · intro t ht
    by_contra hlt
    exact ht (by simp [fpsSampleStep, hlt, getAverageFps])

/-- C7 witness: with the last sample at `t = 10` and a one-second
interval, stepping at `t = 10.5` changes nothing. -/
theorem getAverageFps_sample_interval_witness :
    fpsSampleStep ⟨600, 60, 540, 10, 1⟩ (21/2) = ⟨600, 60, 540, 10, 1⟩
    ∧ getAverageFps (fpsSampleStep ⟨600, 60, 540, 10, 1⟩ (21/2))
      = getAverageFps ⟨600, 60, 540, 10, 1⟩
    ∧ (∀ t : ℚ,
        getAverageFps (fpsSampleStep ⟨600, 60, 540, 10, 1⟩ t)
          ≠ getAverageFps ⟨600, 60, 540, 10, 1⟩ → (10 : ℚ) + 1 ≤ t) :=
  getAverageFps_sample_interval ⟨600, 60, 540, 10, 1⟩ (21/2) (by norm_num)

/-- The frame-rate configuration fields of `AppBase::Settings`
(`mFrameRateEnabled`, `mFrameRate`). -/
structure Settings where
  mFrameRateEnabled : Bool
  mFrameRate : ℚ
deriving DecidableEq

/-- Modelled from the spec: `AppBase::Settings::setFrameRate( frameRate )`
(declared at `AppBase.h` line 190; its body, in `AppBase.cpp`, is missing
from the sources).  "rate must be > 0 when enabling (reject/clamp
otherwise — caller error, not a crash)": a positive rate stores the
target and enables limiting; a non-positive rate is rejected, leaving the
stored configuration unchanged. -/
def Settings.setFrameRate (s : Settings) (frameRate : ℚ) : Settings :=
  if 0 < frameRate then
    { s with mFrameRate := frameRate, mFrameRateEnabled := true }
  else
    s

/-- Modelled from the spec: `AppBase::Settings::disableFrameRate()`
(declared at `AppBase.h` line 192; body missing from the sources) —
clears the limiting-enabled flag. -/
def Settings.disableFrameRate (s : Settings) : Settings :=
  { s with mFrameRateEnabled := false }

/-- C8: `setFrameRate` with a non-positive rate is rejected — it is a
total function (no crash) whose result leaves the stored target and
enabled flag exactly as they were — while a positive rate is accepted,
storing the target and enabling limiting. -/
theorem setFrameRate_rejects_nonPositive (s : Settings) (rate : ℚ)
    (h : rate ≤ 0) :
    Settings.setFrameRate s rate = s
    ∧ (Settings.setFrameRate s rate).mFrameRate = s.mFrameRate
    ∧ (Settings.setFrameRate s rate).mFrameRateEnabled = s.mFrameRateEnabled
    ∧ (∀ r : ℚ, 0 < r →
        Settings.setFrameRate s r = ⟨true, r⟩) := by
  have hnot : ¬ 0 < rate := not_lt.mpr h
  refine ⟨?_, ?_, ?_, ?_⟩
  · simp [Settings.setFrameRate, hnot]
  · simp [Settings.setFrameRate, hnot]
  · simp [Settings.setFrameRate, hnot]
  · intro r hr
    simp [Settings.setFrameRate, hr]

/-- C8 witness: starting from disabled limiting at target 60, a call with
rate `-5` changes nothing, and a call with rate `30` stores `30` and
enables limiting. -/
theorem setFrameRate_rejects_nonPositive_witness :
    Settings.setFrameRate ⟨false, 60⟩ (-5) = ⟨false, 60⟩
    ∧ (Settings.setFrameRate ⟨false, 60⟩ (-5)).mFrameRate = (60 : ℚ)
    ∧ (Settings.setFrameRate ⟨false, 60⟩ (-5)).mFrameRateEnabled = false
    ∧ (∀ r : ℚ, 0 < r →
        Settings.setFrameRate ⟨false, 60⟩ r = ⟨true, r⟩) :=
  setFrameRate_rejects_nonPositive ⟨false, 60⟩ (-5) (by norm_num)

/-! ### The per-frame sequence

`privateUpdate__` is declared at `AppBase.h` line 422 but its body, in
`AppBase.cpp`, is missing from the sources; the frame sequence is
modelled from the spec.  Each step both transforms the app state and
appends its phase to an observable trace, so the order of execution is
the trace the frame produces. -/

/-- The five phases of one frame of the running loop. -/
inductive FramePhase where
  | drainTasks
  | userUpdate
  | emitUpdateSignal
  | userDraw
  | tickClock
deriving DecidableEq

/-- What a concrete app supplies to the loop driver: the state
transformations of the five per-frame steps (the dispatcher drain, the
user `update` hook, the `Update` signal emission, the user `draw` hook,
and the frame clock's `tick`). -/
structure FrameHooks (σ : Type) where
  drainStep : σ → σ
  updateHook : σ → σ
  emitUpdate : σ → σ
  drawHook : σ → σ
  tickStep : σ → σ

/-- Run one step of a frame: apply the step's transformation and record
its phase at the end of the trace. -/
def frameStep {σ : Type} (p : FramePhase) (f : σ → σ)
    (st : σ × List FramePhase) : σ × List FramePhase :=
  (f st.1, st.2 ++ [p])

/-- Modelled from the spec: one frame of the running loop (the body of
`privateUpdate__` and its driver is in `AppBase.cpp`, missing from the
sources).  "Per-frame sequence (fixed order, must not be reordered):
(1) drain TaskDispatcher, (2) invoke user update hook, (3) emit `Update`
signal, (4) invoke user draw hook, (5) `FrameClock.tick()`." -/
def runFrame {σ : Type} (h : FrameHooks σ) (st : σ × List FramePhase) :
    σ × List FramePhase :=
  frameStep FramePhase.tickClock h.tickStep
    (frameStep FramePhase.userDraw h.drawHook
      (frameStep FramePhase.emitUpdateSignal h.emitUpdate
        (frameStep FramePhase.userUpdate h.updateHook
          (frameStep FramePhase.drainTasks h.drainStep st))))

/-- The loop: run `n` successive frames. -/
def runFrames {σ : Type} (h : FrameHooks σ) : Nat → σ × List FramePhase →
    σ × List FramePhase
  | 0, st => st
  | n + 1, st => runFrames h n (runFrame h st)

/-- The frame phase order the spec fixes. -/
def frameOrder : List FramePhase :=
  [FramePhase.drainTasks, FramePhase.userUpdate, FramePhase.emitUpdateSignal,
   FramePhase.userDraw, FramePhase.tickClock]

theorem runFrame_trace {σ : Type} (h : FrameHooks σ) (st : σ × List FramePhase) :
    runFrame h st
      = (h.tickStep (h.drawHook (h.emitUpdate (h.updateHook (h.drainStep st.1)))),
         st.2 ++ frameOrder) := by
  simp [runFrame, frameStep, frameOrder]

theorem runFrames_trace {σ : Type} (h : FrameHooks σ) (n : Nat)
    (st : σ × List FramePhase) :
    (runFrames h n st).2 = st.2 ++ (List.replicate n frameOrder).flatten := by
  induction n generalizing st with
  | zero => simp [runFrames]
  | succ n ih =>
    rw [runFrames, ih, runFrame_trace]
    simp [List.replicate_succ]

/-- C9: every frame of the running loop executes its steps in the one
fixed order drain-tasks, user-update, emit-Update, user-draw, tick: one
frame appends exactly that phase sequence to the trace while composing
the five steps in that order on the state, and `n` frames append `n`
back-to-back copies of it — never a reordering. -/
theorem frame_sequence_fixed_order {σ : Type} (h : FrameHooks σ)
    (s : σ) (tr : List FramePhase) (n : Nat) :
    runFrame h (s, tr)
      = (h.tickStep (h.drawHook (h.emitUpdate (h.updateHook (h.drainStep s)))),
         tr ++ [FramePhase.drainTasks, FramePhase.userUpdate,
                FramePhase.emitUpdateSignal, FramePhase.userDraw,
                FramePhase.tickClock])
    ∧ (runFrames h n (s, [])).2 = (List.replicate n frameOrder).flatten := by
  constructor
  · exact runFrame_trace h (s, tr)
  · simp [runFrames_trace]

/-! ### The global instance pointer and the free accessors
(`AppBase.h` lines 427-428, 461-463, 472-535)

`AppBase::get()` returns the static `sInstance` pointer with no null
check, and every free convenience accessor immediately dereferences the
returned pointer.  The nullable pointer is embedded as an `Option`; a
dereference of `none` is the observable null-pointer dereference. -/

/-- The per-instance state the claimed accessors read: `mTimer`'s
current seconds, `mFrameCount`, and the values the live app's virtual
`getFrameRate()` / `getWindow()` provide (the window as an opaque
handle). -/
structure AppState where
  timerSeconds : ℚ
  mFrameCount : Nat
  frameRate : ℚ
  windowRef : Nat

/-- The process-wide statics of `AppBase`: the `sInstance` pointer, null
(`none`) whenever no app instance is live. -/
structure AppGlobals where
  sInstance : Option AppState

/-- The result of an operation that dereferences a possibly-null
pointer. -/
inductive DerefResult (α : Type) where
  | ok (a : α)
  | nullDeref
deriving DecidableEq

namespace AppBase

/-- `AppBase::get()`: returns `sInstance` as is — no null check. -/
def get (g : AppGlobals) : Option AppState :=
  g.sInstance

/-- `AppBase::getElapsedSeconds()`: returns `mTimer.getSeconds()`. -/
def getElapsedSeconds (a : AppState) : ℚ :=
  a.timerSeconds

/-- `AppBase::getElapsedFrames()`: returns `mFrameCount`. -/
def getElapsedFrames (a : AppState) : Nat :=
  a.mFrameCount

/-- `AppBase::getFrameRate()` (pure virtual; the live instance provides
the value). -/
def getFrameRate (a : AppState) : ℚ :=
  a.frameRate

/-- `AppBase::getWindow()` (pure virtual; the live instance provides the
window). -/
def getWindow (a : AppState) : Nat :=
  a.windowRef

end AppBase

/-- Dereference the pointer `AppBase::get()` returned: a live instance
yields its state, a null pointer is a null dereference. -/
def derefInstance (g : AppGlobals) : DerefResult AppState :=
  match AppBase.get g with
  | some a => DerefResult.ok a
  | none => DerefResult.nullDeref

/-- Free `cinder::app::getWindow()`: `AppBase::get()->getWindow()`. -/
def freeGetWindow (g : AppGlobals) : DerefResult Nat :=
  match derefInstance g with
  | DerefResult.ok a => DerefResult.ok (AppBase.getWindow a)
  | DerefResult.nullDeref => DerefResult.nullDeref

/-- Free `cinder::app::getElapsedSeconds()`:
`AppBase::get()->getElapsedSeconds()`. -/
def freeGetElapsedSeconds (g : AppGlobals) : DerefResult ℚ :=
  match derefInstance g with
  | DerefResult.ok a => DerefResult.ok (AppBase.getElapsedSeconds a)
  | DerefResult.nullDeref => DerefResult.nullDeref

/-- Free `cinder::app::getElapsedFrames()`:
`AppBase::get()->getElapsedFrames()`. -/
def freeGetElapsedFrames (g : AppGlobals) : DerefResult Nat :=
  match derefInstance g with
  | DerefResult.ok a => DerefResult.ok (AppBase.getElapsedFrames a)
  | DerefResult.nullDeref => DerefResult.nullDeref

/-- Free `cinder::app::getFrameRate()`:
`AppBase::get()->getFrameRate()`. -/
def freeGetFrameRate (g : AppGlobals) : DerefResult ℚ :=
  match derefInstance g with
  | DerefResult.ok a => DerefResult.ok (AppBase.getFrameRate a)
  | DerefResult.nullDeref => DerefResult.nullDeref

/-- C10: `AppBase::get()` hands back the raw `sInstance` pointer
unchecked, so when a live instance exists every free accessor returns
that instance's member value, and when none is live (`sInstance` null)
every one of them dereferences the null pointer. -/
theorem free_accessors_need_live_instance (g : AppGlobals) :
    AppBase.get g = g.sInstance
    ∧ (g.sInstance = none →
        freeGetWindow g = DerefResult.nullDeref
        ∧ freeGetElapsedSeconds g = DerefResult.nullDeref
        ∧ freeGetElapsedFrames g = DerefResult.nullDeref
        ∧ freeGetFrameRate g = DerefResult.nullDeref)
    ∧ (∀ a : AppState, g.sInstance = some a →
        freeGetWindow g = DerefResult.ok (AppBase.getWindow a)
        ∧ freeGetElapsedSeconds g = DerefResult.ok (AppBase.getElapsedSeconds a)
        ∧ freeGetElapsedFrames g = DerefResult.ok (AppBase.getElapsedFrames a)
        ∧ freeGetFrameRate g = DerefResult.ok (AppBase.getFrameRate a)) := by
  refine ⟨rfl, ?_, ?_⟩
  · intro hnone
    refine ⟨?_, ?_, ?_, ?_⟩ <;>
      simp [freeGetWindow, freeGetElapsedSeconds, freeGetElapsedFrames,
        freeGetFrameRate, derefInstance, AppBase.get, hnone]
  · intro a ha
    refine ⟨?_, ?_, ?_, ?_⟩ <;>
      simp [freeGetWindow, freeGetElapsedSeconds, freeGetElapsedFrames,
        freeGetFrameRate, derefInstance, AppBase.get, ha]

/-- C10 witness: with no live instance every free accessor null-derefs;
with a live instance holding frame count `7` the free frame counter
returns `7`. -/
theorem free_accessors_need_live_instance_witness :
    freeGetWindow ⟨none⟩ = DerefResult.nullDeref
    ∧ freeGetElapsedFrames ⟨none⟩ = DerefResult.nullDeref
    ∧ freeGetElapsedFrames ⟨some ⟨1, 7, 60, 0⟩⟩ = DerefResult.ok 7 :=
  ⟨((free_accessors_need_live_instance ⟨none⟩).2.1 rfl).1,
   ((free_accessors_need_live_instance ⟨none⟩).2.1 rfl).2.2.1,
   ((free_accessors_need_live_instance ⟨some ⟨1, 7, 60, 0⟩⟩).2.2
      ⟨1, 7, 60, 0⟩ rfl).2.2.1⟩

end Cinder
